import Mathlib

/-!
Verification of the admission-control core of `src/runway.c`: a single
runway shared by commercial, cargo and emergency aircraft threads plus a
controller thread, all serialized by one mutex and one condition variable.
The shallow embedding translates the shared globals into a record `GState`,
the pure predicate `can_enter_common` into a Lean function of the same
name, and every lock-protected critical section (arrival registration,
fuel-emergency escalation, the admitted branch of each `*_enter` function,
each `*_leave` function, `take_break` and `switch_direction` as invoked by
`controller_thread`) into a labelled atomic transition of a step relation
over the global state paired with a multiset of per-thread local states.
-/

namespace Runway

/-- Constant MAX_RUNWAY_CAPACITY from runway.c line 31. -/
def MAX_RUNWAY_CAPACITY : Int := 2

/-- Constant CONTROLLER_LIMIT from runway.c line 32. -/
def CONTROLLER_LIMIT : Int := 8

/-- Constant MAX_AIRCRAFT from runway.c line 33. -/
def MAX_AIRCRAFT : Int := 1000

/-- Constant DIRECTION_LIMIT from runway.c line 38. -/
def DIRECTION_LIMIT : Int := 3

/-- Aircraft type code COMMERCIAL (runway.c line 40). -/
def COMMERCIAL : Int := 0

/-- Aircraft type code CARGO (runway.c line 41). -/
def CARGO : Int := 1

/-- Aircraft type code EMERGENCY (runway.c line 42). -/
def EMERGENCY : Int := 2

/-- Direction code NORTH (runway.c line 44). -/
def NORTH : Int := 0

/-- Direction code SOUTH (runway.c line 45). -/
def SOUTH : Int := 1

/-- The shared global variables of runway.c (lines 56-87), all C `int`s,
mutated only while `runway_mutex` is held. -/
structure GState where
  waiting_commercial : Int
  waiting_cargo : Int
  waiting_emergency : Int
  waiting_north : Int
  waiting_south : Int
  fuel_emergency_waiting : Int
  last_regular_type : Int
  regular_type_count : Int
  aircraft_on_runway : Int
  commercial_on_runway : Int
  cargo_on_runway : Int
  emergency_on_runway : Int
  aircraft_since_break : Int
  current_direction : Int
  consecutive_direction : Int
  deriving DecidableEq

/-- The global state after `initialize` (runway.c lines 218-233): every
counter 0, direction NORTH, `last_regular_type = -1`. -/
def initG : GState :=
  { waiting_commercial := 0
    waiting_cargo := 0
    waiting_emergency := 0
    waiting_north := 0
    waiting_south := 0
    fuel_emergency_waiting := 0
    last_regular_type := -1
    regular_type_count := 0
    aircraft_on_runway := 0
    commercial_on_runway := 0
    cargo_on_runway := 0
    emergency_on_runway := 0
    aircraft_since_break := 0
    current_direction := NORTH
    consecutive_direction := 0 }

/-- The `opposite_waiting` computation of `can_enter_common`
(runway.c lines 192-200): waiters for the direction opposite to the
current one, 0 if the current direction is neither NORTH nor SOUTH. -/
def opp_waiting (s : GState) : Int :=
  if s.current_direction = NORTH then s.waiting_south
  else if s.current_direction = SOUTH then s.waiting_north
  else 0

/-- The pure admission predicate `can_enter_common` (runway.c lines
112-210), translated check for check in source order. Of the
`aircraft_info` argument only the `aircraft_type` field is read, so the
embedding takes the type code directly. Returns `true` exactly when the
C function returns 1. -/
def can_enter_common (s : GState) (aircraft_type desired_direction : Int)
    (fuel_emergency : Bool) : Bool :=
  if s.aircraft_on_runway ≥ MAX_RUNWAY_CAPACITY then false
  else if s.aircraft_since_break ≥ CONTROLLER_LIMIT then false
  else if (aircraft_type = COMMERCIAL ∨ aircraft_type = CARGO) ∧
      desired_direction ≠ s.current_direction then false
  else if aircraft_type = COMMERCIAL ∧ s.cargo_on_runway > 0 then false
  else if aircraft_type = CARGO ∧ s.commercial_on_runway > 0 then false
  else if s.fuel_emergency_waiting > 0 ∧ fuel_emergency = false then false
  else if aircraft_type ≠ EMERGENCY ∧ s.waiting_emergency > 0 then false
  else if (aircraft_type = COMMERCIAL ∨ aircraft_type = CARGO) ∧
      s.regular_type_count ≥ 4 ∧ s.last_regular_type = aircraft_type ∧
      (if aircraft_type = COMMERCIAL then s.waiting_cargo
       else s.waiting_commercial) > 0 then false
  else if desired_direction = s.current_direction ∧
      s.consecutive_direction ≥ DIRECTION_LIMIT ∧
      opp_waiting s > 0 then false
  else true

/-- Registration prologue of `commercial_enter` (runway.c lines 381-382):
`waiting_commercial++; waiting_north++;`. -/
def commercial_register (s : GState) : GState :=
  { s with waiting_commercial := s.waiting_commercial + 1
           waiting_north := s.waiting_north + 1 }

/-- Registration prologue of `cargo_enter` (runway.c lines 455-456):
`waiting_cargo++; waiting_south++;`. -/
def cargo_register (s : GState) : GState :=
  { s with waiting_cargo := s.waiting_cargo + 1
           waiting_south := s.waiting_south + 1 }

/-- Registration prologue of `emergency_enter` (runway.c line 522):
`waiting_emergency++;` only — neither direction counter is touched. -/
def emergency_register (s : GState) : GState :=
  { s with waiting_emergency := s.waiting_emergency + 1 }

/-- Fuel-emergency escalation performed inside each wait loop
(runway.c lines 390-396, 464-470, 530-536): the thread sets its local
`fuel_emergency` flag and does `fuel_emergency_waiting++`. -/
def declare_fuel_emergency (s : GState) : GState :=
  { s with fuel_emergency_waiting := s.fuel_emergency_waiting + 1 }

/-- Admitted branch of `commercial_enter` (runway.c lines 405-428):
decrement the waiting counters (and `fuel_emergency_waiting` when
escalated), increment the occupancy, break and direction-run counters,
and update the commercial/cargo fairness pair. -/
def commercial_enter_update (s : GState) (fuel_emergency : Bool) : GState :=
  { s with waiting_commercial := s.waiting_commercial - 1
           waiting_north := s.waiting_north - 1
           fuel_emergency_waiting :=
             if fuel_emergency then s.fuel_emergency_waiting - 1
             else s.fuel_emergency_waiting
           aircraft_on_runway := s.aircraft_on_runway + 1
           commercial_on_runway := s.commercial_on_runway + 1
           aircraft_since_break := s.aircraft_since_break + 1
           consecutive_direction := s.consecutive_direction + 1
           last_regular_type :=
             if s.last_regular_type = COMMERCIAL then s.last_regular_type
             else COMMERCIAL
           regular_type_count :=
             if s.last_regular_type = COMMERCIAL then s.regular_type_count + 1
             else 1 }

/-- Admitted branch of `cargo_enter` (runway.c lines 474-496). -/
def cargo_enter_update (s : GState) (fuel_emergency : Bool) : GState :=
  { s with waiting_cargo := s.waiting_cargo - 1
           waiting_south := s.waiting_south - 1
           fuel_emergency_waiting :=
             if fuel_emergency then s.fuel_emergency_waiting - 1
             else s.fuel_emergency_waiting
           aircraft_on_runway := s.aircraft_on_runway + 1
           cargo_on_runway := s.cargo_on_runway + 1
           aircraft_since_break := s.aircraft_since_break + 1
           consecutive_direction := s.consecutive_direction + 1
           last_regular_type :=
             if s.last_regular_type = CARGO then s.last_regular_type
             else CARGO
           regular_type_count :=
             if s.last_regular_type = CARGO then s.regular_type_count + 1
             else 1 }

/-- Admitted branch of `emergency_enter` (runway.c lines 550-560): the
commercial/cargo fairness fields are left untouched. -/
def emergency_enter_update (s : GState) (fuel_emergency : Bool) : GState :=
  { s with waiting_emergency := s.waiting_emergency - 1
           fuel_emergency_waiting :=
             if fuel_emergency then s.fuel_emergency_waiting - 1
             else s.fuel_emergency_waiting
           aircraft_on_runway := s.aircraft_on_runway + 1
           emergency_on_runway := s.emergency_on_runway + 1
           aircraft_since_break := s.aircraft_since_break + 1
           consecutive_direction := s.consecutive_direction + 1 }

/-- Critical section of `commercial_leave` (runway.c lines 589-590). -/
def commercial_leave_update (s : GState) : GState :=
  { s with aircraft_on_runway := s.aircraft_on_runway - 1
           commercial_on_runway := s.commercial_on_runway - 1 }

/-- Critical section of `cargo_leave` (runway.c lines 608-609). -/
def cargo_leave_update (s : GState) : GState :=
  { s with aircraft_on_runway := s.aircraft_on_runway - 1
           cargo_on_runway := s.cargo_on_runway - 1 }

/-- Critical section of `emergency_leave` (runway.c lines 626-627). -/
def emergency_leave_update (s : GState) : GState :=
  { s with aircraft_on_runway := s.aircraft_on_runway - 1
           emergency_on_runway := s.emergency_on_runway - 1 }

/-- Effect of `take_break` (runway.c lines 281-288): after the sleep,
`aircraft_since_break = 0`. The lock is held for the whole duration, so
the action is one atomic transition of the model. -/
def take_break_update (s : GState) : GState :=
  { s with aircraft_since_break := 0 }

/-- Effect of `switch_direction` (runway.c lines 293-309): flip
`current_direction` between NORTH and SOUTH and reset
`consecutive_direction` to 0, atomically (the lock is held throughout). -/
def switch_direction_update (s : GState) : GState :=
  { s with current_direction :=
             if s.current_direction = NORTH then SOUTH else NORTH
           consecutive_direction := 0 }

/-- The `same_waiting` computation of `controller_thread`
(runway.c lines 336-348): waiters for the current direction. -/
def same_waiting (s : GState) : Int :=
  if s.current_direction = NORTH then s.waiting_north
  else if s.current_direction = SOUTH then s.waiting_south
  else 0

/-- Local phase of one aircraft thread: blocked in its enter loop (with
its thread-local `fuel_emergency` flag) or holding a runway slot. A
thread that has left the runway disappears from the model. -/
inductive Phase where
  | waitingFor (fuel_emergency : Bool)
  | onRunway
  deriving DecidableEq

/-- One aircraft thread: its `aircraft_type` code and its current phase. -/
structure Aircraft where
  ty : Int
  ph : Phase
  deriving DecidableEq

/-- Whether the phase is a waiting phase. -/
def Phase.isWaiting : Phase → Bool
  | .waitingFor _ => true
  | .onRunway => false

/-- Whether the phase is a waiting phase with the fuel-emergency flag set. -/
def Phase.isEscalated : Phase → Bool
  | .waitingFor fe => fe
  | .onRunway => false

/-- Whether the phase is the on-runway phase. -/
def Phase.isOnRunway : Phase → Bool
  | .waitingFor _ => false
  | .onRunway => true

/-- Whole-system state: the shared globals plus the multiset of live
aircraft threads. -/
structure Sys where
  g : GState
  ts : Multiset Aircraft

/-- Labels for the atomic lock-protected transitions of runway.c. -/
inductive Event where
  | arriveCommercial
  | arriveCargo
  | arriveEmergency
  | escalate
  | admitCommercial (fuel_emergency : Bool)
  | admitCargo (fuel_emergency : Bool)
  | admitEmergency (fuel_emergency : Bool)
  | leaveCommercial
  | leaveCargo
  | leaveEmergency
  | takeBreak
  | switchDirection
  deriving DecidableEq

/-- Whether the event is a WAITING→ADMITTED transition of some requester. -/
def Event.isAdmission : Event → Bool
  | .admitCommercial _ | .admitCargo _ | .admitEmergency _ => true
  | _ => false

/-- Whether the event is a runway release. -/
def Event.isRelease : Event → Bool
  | .leaveCommercial | .leaveCargo | .leaveEmergency => true
  | _ => false

/-- Which transitions of runway.c broadcast on `cond_aircraft`, read off
from the source: the three leave functions broadcast (lines 596, 614,
632) and the controller broadcasts after `take_break` (line 331) and
after `switch_direction` (line 356); the admitted branches of the three
enter functions (lines 405-431, 473-499, 549-564), the registration
prologues and the escalation code contain no `pthread_cond_broadcast`. -/
def wakesAll : Event → Bool
  | .leaveCommercial | .leaveCargo | .leaveEmergency => true
  | .takeBreak | .switchDirection => true
  | _ => false

/-- One atomic lock-protected transition of the program, labelled by its
event. Admission transitions are guarded by `can_enter_common` exactly as
in the source (commercial requests NORTH, cargo requests SOUTH, emergency
adopts the current direction, runway.c lines 373, 447, 546); the
controller transitions carry the guards of `controller_thread`
(lines 326-357), where a direction switch happens only in the `else`
branch, i.e. when no break is due. -/
inductive Step : Event → Sys → Sys → Prop where
  | arriveCommercial (g : GState) (ts : Multiset Aircraft) :
      Step .arriveCommercial ⟨g, ts⟩
        ⟨commercial_register g, ⟨COMMERCIAL, .waitingFor false⟩ ::ₘ ts⟩
  | arriveCargo (g : GState) (ts : Multiset Aircraft) :
      Step .arriveCargo ⟨g, ts⟩
        ⟨cargo_register g, ⟨CARGO, .waitingFor false⟩ ::ₘ ts⟩
  | arriveEmergency (g : GState) (ts : Multiset Aircraft) :
      Step .arriveEmergency ⟨g, ts⟩
        ⟨emergency_register g, ⟨EMERGENCY, .waitingFor false⟩ ::ₘ ts⟩
  | escalate (g : GState) (ty : Int) (rest : Multiset Aircraft) :
      Step .escalate ⟨g, ⟨ty, .waitingFor false⟩ ::ₘ rest⟩
        ⟨declare_fuel_emergency g, ⟨ty, .waitingFor true⟩ ::ₘ rest⟩
  | admitCommercial (g : GState) (rest : Multiset Aircraft)
      (fe : Bool) (h : can_enter_common g COMMERCIAL NORTH fe = true) :
      Step (.admitCommercial fe) ⟨g, ⟨COMMERCIAL, .waitingFor fe⟩ ::ₘ rest⟩
        ⟨commercial_enter_update g fe, ⟨COMMERCIAL, .onRunway⟩ ::ₘ rest⟩
  | admitCargo (g : GState) (rest : Multiset Aircraft)
      (fe : Bool) (h : can_enter_common g CARGO SOUTH fe = true) :
      Step (.admitCargo fe) ⟨g, ⟨CARGO, .waitingFor fe⟩ ::ₘ rest⟩
        ⟨cargo_enter_update g fe, ⟨CARGO, .onRunway⟩ ::ₘ rest⟩
  | admitEmergency (g : GState) (rest : Multiset Aircraft)
      (fe : Bool)
      (h : can_enter_common g EMERGENCY g.current_direction fe = true) :
      Step (.admitEmergency fe) ⟨g, ⟨EMERGENCY, .waitingFor fe⟩ ::ₘ rest⟩
        ⟨emergency_enter_update g fe, ⟨EMERGENCY, .onRunway⟩ ::ₘ rest⟩
  | leaveCommercial (g : GState) (rest : Multiset Aircraft) :
      Step .leaveCommercial ⟨g, ⟨COMMERCIAL, .onRunway⟩ ::ₘ rest⟩
        ⟨commercial_leave_update g, rest⟩
  | leaveCargo (g : GState) (rest : Multiset Aircraft) :
      Step .leaveCargo ⟨g, ⟨CARGO, .onRunway⟩ ::ₘ rest⟩
        ⟨cargo_leave_update g, rest⟩
  | leaveEmergency (g : GState) (rest : Multiset Aircraft) :
      Step .leaveEmergency ⟨g, ⟨EMERGENCY, .onRunway⟩ ::ₘ rest⟩
        ⟨emergency_leave_update g, rest⟩
  | takeBreak (g : GState) (ts : Multiset Aircraft)
      (hlim : g.aircraft_since_break ≥ CONTROLLER_LIMIT)
      (hempty : g.aircraft_on_runway = 0) :
      Step .takeBreak ⟨g, ts⟩ ⟨take_break_update g, ts⟩
  | switchDirection (g : GState) (ts : Multiset Aircraft)
      (hempty : g.aircraft_on_runway = 0)
      (hnobreak : ¬ g.aircraft_since_break ≥ CONTROLLER_LIMIT)
      (hopp : opp_waiting g > 0)
      (hcond : g.consecutive_direction ≥ DIRECTION_LIMIT ∨ same_waiting g = 0) :
      Step .switchDirection ⟨g, ts⟩ ⟨switch_direction_update g, ts⟩

/-- Reachable system states: the initialized state with no threads, closed
under `Step`. -/
inductive Reachable : Sys → Prop where
  | init : Reachable ⟨initG, 0⟩
  | step {e : Event} {s t : Sys} (hr : Reachable s) (hs : Step e s t) :
      Reachable t

/-- Number of live threads of type `ty` currently blocked in a wait loop. -/
def waitCount (ty : Int) (ts : Multiset Aircraft) : ℕ :=
  Multiset.countP (fun a => a.ty = ty ∧ a.ph.isWaiting = true) ts

/-- Number of live threads currently waiting with their fuel-emergency
flag set. -/
def escCount (ts : Multiset Aircraft) : ℕ :=
  Multiset.countP (fun a => a.ph.isEscalated = true) ts

/-- Number of live threads of type `ty` currently on the runway. -/
def runwayCount (ty : Int) (ts : Multiset Aircraft) : ℕ :=
  Multiset.countP (fun a => a.ty = ty ∧ a.ph.isOnRunway = true) ts

/-- Coherence invariant tying the shared counters of runway.c to the
actual thread population, together with the numeric invariants the
program asserts. -/
structure Inv (s : Sys) : Prop where
  hwc : s.g.waiting_commercial = (waitCount COMMERCIAL s.ts : Int)
  hwg : s.g.waiting_cargo = (waitCount CARGO s.ts : Int)
  hwe : s.g.waiting_emergency = (waitCount EMERGENCY s.ts : Int)
  hnorth : s.g.waiting_north = s.g.waiting_commercial
  hsouth : s.g.waiting_south = s.g.waiting_cargo
  hfew : s.g.fuel_emergency_waiting = (escCount s.ts : Int)
  hcr : s.g.commercial_on_runway = (runwayCount COMMERCIAL s.ts : Int)
  hgr : s.g.cargo_on_runway = (runwayCount CARGO s.ts : Int)
  her : s.g.emergency_on_runway = (runwayCount EMERGENCY s.ts : Int)
  hsum : s.g.aircraft_on_runway =
    s.g.commercial_on_runway + s.g.cargo_on_runway + s.g.emergency_on_runway
  hcap : s.g.aircraft_on_runway ≤ 2
  hseg : ¬(s.g.commercial_on_runway > 0 ∧ s.g.cargo_on_runway > 0)
  hbrk0 : 0 ≤ s.g.aircraft_since_break
  hbrk8 : s.g.aircraft_since_break ≤ 8
  hdir : s.g.current_direction = NORTH ∨ s.g.current_direction = SOUTH

/-- An early-return layer: `if c then false else b` evaluates to `true`
exactly when the check `c` fails and the rest evaluates to `true`. -/
theorem ite_false_eq_true_iff {c : Prop} [Decidable c] {b : Bool} :
    (if c then false else b) = true ↔ ¬c ∧ b = true := by
  split_ifs with h <;> simp [h]

/-- Normal form of `can_enter_common`: it returns 1 exactly when each of
the nine early-return conditions of runway.c lines 119-207 fails (the
class-segregation check of lines 142-150 is two early returns in the
source, hence nine conditions for the eight conceptual checks). -/
theorem can_enter_common_eq_true_iff (s : GState) (ty dir : Int) (fe : Bool) :
    can_enter_common s ty dir fe = true ↔
      ¬(s.aircraft_on_runway ≥ MAX_RUNWAY_CAPACITY) ∧
      ¬(s.aircraft_since_break ≥ CONTROLLER_LIMIT) ∧
      ¬((ty = COMMERCIAL ∨ ty = CARGO) ∧ dir ≠ s.current_direction) ∧
      ¬(ty = COMMERCIAL ∧ s.cargo_on_runway > 0) ∧
      ¬(ty = CARGO ∧ s.commercial_on_runway > 0) ∧
      ¬(s.fuel_emergency_waiting > 0 ∧ fe = false) ∧
      ¬(ty ≠ EMERGENCY ∧ s.waiting_emergency > 0) ∧
      ¬((ty = COMMERCIAL ∨ ty = CARGO) ∧ s.regular_type_count ≥ 4 ∧
        s.last_regular_type = ty ∧
        (if ty = COMMERCIAL then s.waiting_cargo
         else s.waiting_commercial) > 0) ∧
      ¬(dir = s.current_direction ∧
        s.consecutive_direction ≥ DIRECTION_LIMIT ∧ opp_waiting s > 0) := by
  simp only [can_enter_common, ite_false_eq_true_iff, and_true]

/-- Facts extracted from a successful `can_enter_common` evaluation:
the checks that do not mention the desired direction. -/
theorem can_enter_facts {s : GState} {ty dir : Int} {fe : Bool}
    (h : can_enter_common s ty dir fe = true) :
    s.aircraft_on_runway < MAX_RUNWAY_CAPACITY ∧
    s.aircraft_since_break < CONTROLLER_LIMIT ∧
    (ty = COMMERCIAL → ¬ s.cargo_on_runway > 0) ∧
    (ty = CARGO → ¬ s.commercial_on_runway > 0) ∧
    (fe = false → ¬ s.fuel_emergency_waiting > 0) ∧
    (ty ≠ EMERGENCY → ¬ s.waiting_emergency > 0) ∧
    ((ty = COMMERCIAL ∨ ty = CARGO) →
      ¬(s.regular_type_count ≥ 4 ∧ s.last_regular_type = ty ∧
        (if ty = COMMERCIAL then s.waiting_cargo else s.waiting_commercial) > 0)) := by
  rw [can_enter_common_eq_true_iff] at h
  obtain ⟨n1, n2, n3, n4, n5, n6, n7, n8, n9⟩ := h
  exact ⟨not_le.mp n1, not_le.mp n2,
    fun hc hx => n4 ⟨hc, hx⟩,
    fun hc hx => n5 ⟨hc, hx⟩,
    fun hc hx => n6 ⟨hx, hc⟩,
    fun hc hx => n7 ⟨hc, hx⟩,
    fun hc hx => n8 ⟨hc, hx⟩⟩

/-- The initial state satisfies the coherence invariant. -/
theorem inv_init : Inv ⟨initG, 0⟩ := by
  constructor <;> simp [initG, waitCount, escCount, runwayCount, NORTH, SOUTH]

/-- Unfolding lemma for `waitCount` over a multiset cons. -/
theorem waitCount_cons (ty : Int) (a : Aircraft) (ts : Multiset Aircraft) :
    waitCount ty (a ::ₘ ts) =
      waitCount ty ts + (if a.ty = ty ∧ a.ph.isWaiting = true then 1 else 0) :=
  Multiset.countP_cons _ _ _

/-- Unfolding lemma for `escCount` over a multiset cons. -/
theorem escCount_cons (a : Aircraft) (ts : Multiset Aircraft) :
    escCount (a ::ₘ ts) =
      escCount ts + (if a.ph.isEscalated = true then 1 else 0) :=
  Multiset.countP_cons _ _ _

/-- Unfolding lemma for `runwayCount` over a multiset cons. -/
theorem runwayCount_cons (ty : Int) (a : Aircraft) (ts : Multiset Aircraft) :
    runwayCount ty (a ::ₘ ts) =
      runwayCount ty ts + (if a.ty = ty ∧ a.ph.isOnRunway = true then 1 else 0) :=
  Multiset.countP_cons _ _ _

/-- Invariant preservation: commercial arrival registration. -/
theorem inv_arriveCommercial {g : GState} {ts : Multiset Aircraft} (hi : Inv ⟨g, ts⟩) :
    Inv ⟨commercial_register g, ⟨COMMERCIAL, .waitingFor false⟩ ::ₘ ts⟩ := by
  obtain ⟨hwc, hwg, hwe, hnorth, hsouth, hfew, hcr, hgr, her, hsum, hcap,
    hseg, hbrk0, hbrk8, hdir⟩ := hi
  constructor <;>
    simp [commercial_register, waitCount_cons, escCount_cons,
      runwayCount_cons, Phase.isWaiting, Phase.isEscalated,
      Phase.isOnRunway, COMMERCIAL, CARGO, EMERGENCY, NORTH, SOUTH,
      MAX_RUNWAY_CAPACITY, CONTROLLER_LIMIT] at * <;>
    first | assumption | omega

/-- Invariant preservation: cargo arrival registration. -/
theorem inv_arriveCargo {g : GState} {ts : Multiset Aircraft} (hi : Inv ⟨g, ts⟩) :
    Inv ⟨cargo_register g, ⟨CARGO, .waitingFor false⟩ ::ₘ ts⟩ := by
  obtain ⟨hwc, hwg, hwe, hnorth, hsouth, hfew, hcr, hgr, her, hsum, hcap,
    hseg, hbrk0, hbrk8, hdir⟩ := hi
  constructor <;>
    simp [cargo_register, waitCount_cons, escCount_cons,
      runwayCount_cons, Phase.isWaiting, Phase.isEscalated,
      Phase.isOnRunway, COMMERCIAL, CARGO, EMERGENCY, NORTH, SOUTH,
      MAX_RUNWAY_CAPACITY, CONTROLLER_LIMIT] at * <;>
    first | assumption | omega

/-- Invariant preservation: emergency arrival registration. -/
theorem inv_arriveEmergency {g : GState} {ts : Multiset Aircraft} (hi : Inv ⟨g, ts⟩) :
    Inv ⟨emergency_register g, ⟨EMERGENCY, .waitingFor false⟩ ::ₘ ts⟩ := by
  obtain ⟨hwc, hwg, hwe, hnorth, hsouth, hfew, hcr, hgr, her, hsum, hcap,
    hseg, hbrk0, hbrk8, hdir⟩ := hi
  constructor <;>
    simp [emergency_register, waitCount_cons, escCount_cons,
      runwayCount_cons, Phase.isWaiting, Phase.isEscalated,
      Phase.isOnRunway, COMMERCIAL, CARGO, EMERGENCY, NORTH, SOUTH,
      MAX_RUNWAY_CAPACITY, CONTROLLER_LIMIT] at * <;>
    first | assumption | omega

/-- Invariant preservation: a waiting thread declares a fuel emergency. -/
theorem inv_escalate {g : GState} {ty : Int} {rest : Multiset Aircraft}
    (hi : Inv ⟨g, ⟨ty, .waitingFor false⟩ ::ₘ rest⟩) :
    Inv ⟨declare_fuel_emergency g, ⟨ty, .waitingFor true⟩ ::ₘ rest⟩ := by
  obtain ⟨hwc, hwg, hwe, hnorth, hsouth, hfew, hcr, hgr, her, hsum, hcap,
    hseg, hbrk0, hbrk8, hdir⟩ := hi
  constructor <;>
    simp [declare_fuel_emergency, waitCount_cons, escCount_cons,
      runwayCount_cons, Phase.isWaiting, Phase.isEscalated,
      Phase.isOnRunway, COMMERCIAL, CARGO, EMERGENCY, NORTH, SOUTH,
      MAX_RUNWAY_CAPACITY, CONTROLLER_LIMIT] at * <;>
    first | assumption | omega

/-- Invariant preservation: commercial admission. -/
theorem inv_admitCommercial {g : GState} {rest : Multiset Aircraft} {fe : Bool}
    (h : can_enter_common g COMMERCIAL NORTH fe = true)
    (hi : Inv ⟨g, ⟨COMMERCIAL, .waitingFor fe⟩ ::ₘ rest⟩) :
    Inv ⟨commercial_enter_update g fe, ⟨COMMERCIAL, .onRunway⟩ ::ₘ rest⟩ := by
  obtain ⟨hwc, hwg, hwe, hnorth, hsouth, hfew, hcr, hgr, her, hsum, hcap,
    hseg, hbrk0, hbrk8, hdir⟩ := hi
  obtain ⟨hc1, hc2, hc3, hc4, hc5, hc6, hc7⟩ := can_enter_facts h
  have hc3a : ¬ g.cargo_on_runway > 0 := hc3 rfl
  cases fe <;>
    (constructor <;>
    simp [commercial_enter_update, waitCount_cons, escCount_cons,
      runwayCount_cons, Phase.isWaiting, Phase.isEscalated,
      Phase.isOnRunway, COMMERCIAL, CARGO, EMERGENCY, NORTH, SOUTH,
      MAX_RUNWAY_CAPACITY, CONTROLLER_LIMIT] at * <;>
    first | assumption | omega)

/-- Invariant preservation: cargo admission. -/
theorem inv_admitCargo {g : GState} {rest : Multiset Aircraft} {fe : Bool}
    (h : can_enter_common g CARGO SOUTH fe = true)
    (hi : Inv ⟨g, ⟨CARGO, .waitingFor fe⟩ ::ₘ rest⟩) :
    Inv ⟨cargo_enter_update g fe, ⟨CARGO, .onRunway⟩ ::ₘ rest⟩ := by
  obtain ⟨hwc, hwg, hwe, hnorth, hsouth, hfew, hcr, hgr, her, hsum, hcap,
    hseg, hbrk0, hbrk8, hdir⟩ := hi
  obtain ⟨hc1, hc2, hc3, hc4, hc5, hc6, hc7⟩ := can_enter_facts h
  have hc4a : ¬ g.commercial_on_runway > 0 := hc4 rfl
  cases fe <;>
    (constructor <;>
    simp [cargo_enter_update, waitCount_cons, escCount_cons,
      runwayCount_cons, Phase.isWaiting, Phase.isEscalated,
      Phase.isOnRunway, COMMERCIAL, CARGO, EMERGENCY, NORTH, SOUTH,
      MAX_RUNWAY_CAPACITY, CONTROLLER_LIMIT] at * <;>
    first | assumption | omega)

/-- Invariant preservation: emergency admission. -/
theorem inv_admitEmergency {g : GState} {rest : Multiset Aircraft} {fe : Bool}
    (h : can_enter_common g EMERGENCY g.current_direction fe = true)
    (hi : Inv ⟨g, ⟨EMERGENCY, .waitingFor fe⟩ ::ₘ rest⟩) :
    Inv ⟨emergency_enter_update g fe, ⟨EMERGENCY, .onRunway⟩ ::ₘ rest⟩ := by
  obtain ⟨hwc, hwg, hwe, hnorth, hsouth, hfew, hcr, hgr, her, hsum, hcap,
    hseg, hbrk0, hbrk8, hdir⟩ := hi
  obtain ⟨hc1, hc2, hc3, hc4, hc5, hc6, hc7⟩ := can_enter_facts h
  cases fe <;>
    (constructor <;>
    simp [emergency_enter_update, waitCount_cons, escCount_cons,
      runwayCount_cons, Phase.isWaiting, Phase.isEscalated,
      Phase.isOnRunway, COMMERCIAL, CARGO, EMERGENCY, NORTH, SOUTH,
      MAX_RUNWAY_CAPACITY, CONTROLLER_LIMIT] at * <;>
    first | assumption | omega)

/-- Invariant preservation: commercial release. -/
theorem inv_leaveCommercial {g : GState} {rest : Multiset Aircraft}
    (hi : Inv ⟨g, ⟨COMMERCIAL, .onRunway⟩ ::ₘ rest⟩) :
    Inv ⟨commercial_leave_update g, rest⟩ := by
  obtain ⟨hwc, hwg, hwe, hnorth, hsouth, hfew, hcr, hgr, her, hsum, hcap,
    hseg, hbrk0, hbrk8, hdir⟩ := hi
  constructor <;>
    simp [commercial_leave_update, waitCount_cons, escCount_cons,
      runwayCount_cons, Phase.isWaiting, Phase.isEscalated,
      Phase.isOnRunway, COMMERCIAL, CARGO, EMERGENCY, NORTH, SOUTH,
      MAX_RUNWAY_CAPACITY, CONTROLLER_LIMIT] at * <;>
    first | assumption | omega

/-- Invariant preservation: cargo release. -/
theorem inv_leaveCargo {g : GState} {rest : Multiset Aircraft}
    (hi : Inv ⟨g, ⟨CARGO, .onRunway⟩ ::ₘ rest⟩) :
    Inv ⟨cargo_leave_update g, rest⟩ := by
  obtain ⟨hwc, hwg, hwe, hnorth, hsouth, hfew, hcr, hgr, her, hsum, hcap,
    hseg, hbrk0, hbrk8, hdir⟩ := hi
  constructor <;>
    simp [cargo_leave_update, waitCount_cons, escCount_cons,
      runwayCount_cons, Phase.isWaiting, Phase.isEscalated,
      Phase.isOnRunway, COMMERCIAL, CARGO, EMERGENCY, NORTH, SOUTH,
      MAX_RUNWAY_CAPACITY, CONTROLLER_LIMIT] at * <;>
    first | assumption | omega

/-- Invariant preservation: emergency release. -/
theorem inv_leaveEmergency {g : GState} {rest : Multiset Aircraft}
    (hi : Inv ⟨g, ⟨EMERGENCY, .onRunway⟩ ::ₘ rest⟩) :
    Inv ⟨emergency_leave_update g, rest⟩ := by
  obtain ⟨hwc, hwg, hwe, hnorth, hsouth, hfew, hcr, hgr, her, hsum, hcap,
    hseg, hbrk0, hbrk8, hdir⟩ := hi
  constructor <;>
    simp [emergency_leave_update, waitCount_cons, escCount_cons,
      runwayCount_cons, Phase.isWaiting, Phase.isEscalated,
      Phase.isOnRunway, COMMERCIAL, CARGO, EMERGENCY, NORTH, SOUTH,
      MAX_RUNWAY_CAPACITY, CONTROLLER_LIMIT] at * <;>
    first | assumption | omega

/-- Invariant preservation: the controller completes a break. -/
theorem inv_takeBreak {g : GState} {ts : Multiset Aircraft}
    (hi : Inv ⟨g, ts⟩) : Inv ⟨take_break_update g, ts⟩ := by
  obtain ⟨hwc, hwg, hwe, hnorth, hsouth, hfew, hcr, hgr, her, hsum, hcap,
    hseg, hbrk0, hbrk8, hdir⟩ := hi
  constructor <;>
    simp [take_break_update, waitCount_cons, escCount_cons,
      runwayCount_cons, Phase.isWaiting, Phase.isEscalated,
      Phase.isOnRunway, COMMERCIAL, CARGO, EMERGENCY, NORTH, SOUTH,
      MAX_RUNWAY_CAPACITY, CONTROLLER_LIMIT] at * <;>
    first | assumption | omega

/-- Invariant preservation: the controller switches the direction. -/
theorem inv_switchDirection {g : GState} {ts : Multiset Aircraft}
    (hi : Inv ⟨g, ts⟩) : Inv ⟨switch_direction_update g, ts⟩ := by
  obtain ⟨hwc, hwg, hwe, hnorth, hsouth, hfew, hcr, hgr, her, hsum, hcap,
    hseg, hbrk0, hbrk8, hdir⟩ := hi
  rcases hdir with hd | hd <;>
    (constructor <;>
    simp [switch_direction_update, hd, NORTH, SOUTH] at * <;>
    first | assumption | omega)

/-- Every transition preserves the coherence invariant. -/
theorem inv_step {e : Event} {s t : Sys} (hi : Inv s) (hs : Step e s t) :
    Inv t := by
  cases hs with
  | arriveCommercial g ts => exact inv_arriveCommercial hi
  | arriveCargo g ts => exact inv_arriveCargo hi
  | arriveEmergency g ts => exact inv_arriveEmergency hi
  | escalate g ty rest => exact inv_escalate hi
  | admitCommercial g rest fe h => exact inv_admitCommercial h hi
  | admitCargo g rest fe h => exact inv_admitCargo h hi
  | admitEmergency g rest fe h => exact inv_admitEmergency h hi
  | leaveCommercial g rest => exact inv_leaveCommercial hi
  | leaveCargo g rest => exact inv_leaveCargo hi
  | leaveEmergency g rest => exact inv_leaveEmergency hi
  | takeBreak g ts hlim hempty => exact inv_takeBreak hi
  | switchDirection g ts hempty hnobreak hopp hcond => exact inv_switchDirection hi

/-- Every reachable state satisfies the coherence invariant. -/
theorem inv_reachable {s : Sys} (hr : Reachable s) : Inv s := by
  induction hr with
  | init => exact inv_init
  | step hr hs ih => exact inv_step ih hs

/-- The eight admission checks exactly as the specification words them
(spec section 4.2, claim C1), written independently of the source for
comparison with `can_enter_common`: capacity, break gate, directional
compatibility for the standard classes, class segregation (both sides),
global escalation priority, emergency-class precedence, standard-class
fairness, and direction-switch yielding. -/
def spec_admissible (s : GState) (ty dir : Int) (fe : Bool) : Prop :=
  s.aircraft_on_runway < 2 ∧
  s.aircraft_since_break < 8 ∧
  ((ty = COMMERCIAL ∨ ty = CARGO) → dir = s.current_direction) ∧
  ¬(ty = COMMERCIAL ∧ s.cargo_on_runway > 0) ∧
  ¬(ty = CARGO ∧ s.commercial_on_runway > 0) ∧
  ¬(fe = false ∧ s.fuel_emergency_waiting > 0) ∧
  ¬(ty ≠ EMERGENCY ∧ s.waiting_emergency > 0) ∧
  ¬((ty = COMMERCIAL ∨ ty = CARGO) ∧ s.regular_type_count ≥ 4 ∧
    s.last_regular_type = ty ∧
    (if ty = COMMERCIAL then s.waiting_cargo else s.waiting_commercial) > 0) ∧
  ¬(dir = s.current_direction ∧ s.consecutive_direction ≥ 3 ∧
    (if s.current_direction = NORTH then s.waiting_south
     else s.waiting_north) > 0)

/-- When the current direction is one of the two real directions, the
three-way `opposite_waiting` computation of the source agrees with the
two-way reading of the specification. -/
theorem opp_waiting_eq {s : GState}
    (hdir : s.current_direction = NORTH ∨ s.current_direction = SOUTH) :
    opp_waiting s =
      (if s.current_direction = NORTH then s.waiting_south
       else s.waiting_north) := by
  rcases hdir with hd | hd <;> simp [opp_waiting, hd, NORTH, SOUTH]

/-- Claim C1: for every shared state whose current direction is NORTH or
SOUTH and every candidate request, `can_enter_common` admits if and only
if all eight checks of the specification pass. Because the predicate is
pure, the fixed first-failing-check precedence of the source is
equivalent to the conjunction of the eight checks. -/
theorem claim1_admission_predicate_iff (s : GState) (ty dir : Int)
    (fe : Bool)
    (hdir : s.current_direction = NORTH ∨ s.current_direction = SOUTH) :
    can_enter_common s ty dir fe = true ↔ spec_admissible s ty dir fe := by
  rw [can_enter_common_eq_true_iff, opp_waiting_eq hdir]
  unfold spec_admissible
  simp only [MAX_RUNWAY_CAPACITY, CONTROLLER_LIMIT, DIRECTION_LIMIT]
  constructor
  · rintro ⟨n1, n2, n3, n4, n5, n6, n7, n8, n9⟩
    refine ⟨by omega, by omega, fun h => ?_, n4, n5,
      fun hx => n6 ⟨hx.2, hx.1⟩, n7, n8, n9⟩
    by_contra hne
    exact n3 ⟨h, hne⟩
  · rintro ⟨m1, m2, m3, m4, m5, m6, m7, m8, m9⟩
    exact ⟨by omega, by omega, fun hx => hx.2 (m3 hx.1), m4, m5,
      fun hx => m6 ⟨hx.2, hx.1⟩, m7, m8, m9⟩

/-- Concrete instance of claim C1 at the initial state and a commercial
NORTH request. -/
theorem claim1_admission_predicate_iff_witness :
    (initG.current_direction = NORTH ∨ initG.current_direction = SOUTH) ∧
    (can_enter_common initG COMMERCIAL NORTH false = true ↔
      spec_admissible initG COMMERCIAL NORTH false) :=
  ⟨Or.inl rfl,
    claim1_admission_predicate_iff initG COMMERCIAL NORTH false (Or.inl rfl)⟩

/-- Claim C5 counterexample: a commercial admission is a state-mutating
requester transition, yet the admitted branch of `commercial_enter`
(runway.c lines 405-431) contains no `pthread_cond_broadcast`, so the
claim that every state-mutating event wakes all blocked requesters fails
on admission events. -/
theorem claim5_counterexample :
    (Event.admitCommercial false).isAdmission = true ∧
    wakesAll (Event.admitCommercial false) = false := by
  constructor <;> rfl

/-- Claim C5 as amended: release, break completion and direction switch
broadcast on the condition variable, waking all blocked requesters; the
three admission transitions do not broadcast — waiters re-evaluate the
predicate only via their 1-second `pthread_cond_timedwait` timeout. -/
theorem claim5_wake_events :
    (∀ e : Event,
      e.isRelease = true ∨ e = .takeBreak ∨ e = .switchDirection →
      wakesAll e = true) ∧
    (∀ fe : Bool, wakesAll (.admitCommercial fe) = false ∧
      wakesAll (.admitCargo fe) = false ∧
      wakesAll (.admitEmergency fe) = false) := by
  constructor
  · intro e he
    cases e <;> simp_all [wakesAll, Event.isRelease]
  · intro fe
    cases fe <;> exact ⟨rfl, rfl, rfl⟩

/-- Concrete instance of the amended claim C5 at a release event. -/
theorem claim5_wake_events_witness :
    ((Event.leaveCommercial).isRelease = true ∨
      Event.leaveCommercial = .takeBreak ∨
      Event.leaveCommercial = .switchDirection) ∧
    wakesAll Event.leaveCommercial = true :=
  ⟨Or.inl rfl, claim5_wake_events.1 Event.leaveCommercial (Or.inl rfl)⟩

/-- Errno value EINVAL on Linux, returned by `main` when the
workload-file argument is missing (runway.c line 866). -/
def EINVAL : Int := 22

/-- Exit code of the process as determined before any thread is created,
translated from `main` (runway.c lines 863-875) and the `fopen` failure
path of the setup function (lines 245-249): `nargs != 2` returns EINVAL;
an unopenable file calls `exit(1)`; a parsed requester count that is
non-positive or exceeds MAX_AIRCRAFT returns 1; otherwise the
simulation runs and `main` returns 0 on normal completion. -/
def process_exit_code (nargs : Int) (file_ok : Bool) (parsed : Int) : Int :=
  if nargs ≠ 2 then EINVAL
  else if file_ok = false then 1
  else if parsed > MAX_AIRCRAFT ∨ parsed ≤ 0 then 1
  else 0

/-- Claim C8 counterexample: the unopenable-file cause and the
bad-requester-count cause produce the same exit code 1, so the exit
codes are not distinct per cause. -/
theorem claim8_counterexample :
    process_exit_code 2 false 5 = 1 ∧ process_exit_code 2 true 0 = 1 ∧
    process_exit_code 2 false 5 = process_exit_code 2 true 0 := by
  refine ⟨?_, ?_, ?_⟩ <;> decide

/-- Claim C8 as amended: exit code 0 exactly on normal completion, and a
non-zero code for each failure cause — EINVAL (22) for a missing
argument, 1 for an unopenable file, and 1 for a non-positive or
too-large parsed requester count; the last two causes share code 1. -/
theorem claim8_exit_codes :
    (∀ (n : Int) (ok : Bool) (p : Int), process_exit_code n ok p = 0 ↔
      (n = 2 ∧ ok = true ∧ 0 < p ∧ p ≤ MAX_AIRCRAFT)) ∧
    (∀ (n : Int) (ok : Bool) (p : Int), n ≠ 2 →
      process_exit_code n ok p = EINVAL) ∧
    (∀ p : Int, process_exit_code 2 false p = 1) ∧
    (∀ p : Int, p ≤ 0 ∨ p > MAX_AIRCRAFT →
      process_exit_code 2 true p = 1) ∧
    EINVAL ≠ 0 ∧ (1 : Int) ≠ 0 := by
  refine ⟨?_, ?_, ?_, ?_, by decide, by decide⟩ <;>
    intros <;>
    simp only [process_exit_code, EINVAL, MAX_AIRCRAFT] at * <;>
    split_ifs <;> first | omega | simp_all | tauto

/-- Concrete instance of the amended claim C8: one argument too few
exits with EINVAL. -/
theorem claim8_exit_codes_witness :
    (1 : Int) ≠ 2 ∧ process_exit_code 1 true 5 = EINVAL :=
  ⟨by decide, claim8_exit_codes.2.1 1 true 5 (by decide)⟩

/-- Claim C2: in every reachable state the occupancy lies between 0 and
2 and equals the sum of the three per-class occupancy counters; every
admission transition increments the occupancy and exactly its own class
counter together and can only fire from a state with occupancy below 2;
every release decrements the occupancy and exactly its own class counter
together. -/
theorem claim2_occupancy_bounds :
    (∀ s : Sys, Reachable s →
      0 ≤ s.g.aircraft_on_runway ∧ s.g.aircraft_on_runway ≤ 2 ∧
      s.g.commercial_on_runway + s.g.cargo_on_runway +
        s.g.emergency_on_runway = s.g.aircraft_on_runway) ∧
    (∀ (s t : Sys) (fe : Bool), Step (.admitCommercial fe) s t →
      t.g.aircraft_on_runway = s.g.aircraft_on_runway + 1 ∧
      t.g.commercial_on_runway = s.g.commercial_on_runway + 1 ∧
      t.g.cargo_on_runway = s.g.cargo_on_runway ∧
      t.g.emergency_on_runway = s.g.emergency_on_runway ∧
      s.g.aircraft_on_runway < 2) ∧
    (∀ (s t : Sys) (fe : Bool), Step (.admitCargo fe) s t →
      t.g.aircraft_on_runway = s.g.aircraft_on_runway + 1 ∧
      t.g.cargo_on_runway = s.g.cargo_on_runway + 1 ∧
      t.g.commercial_on_runway = s.g.commercial_on_runway ∧
      t.g.emergency_on_runway = s.g.emergency_on_runway ∧
      s.g.aircraft_on_runway < 2) ∧
    (∀ (s t : Sys) (fe : Bool), Step (.admitEmergency fe) s t →
      t.g.aircraft_on_runway = s.g.aircraft_on_runway + 1 ∧
      t.g.emergency_on_runway = s.g.emergency_on_runway + 1 ∧
      t.g.commercial_on_runway = s.g.commercial_on_runway ∧
      t.g.cargo_on_runway = s.g.cargo_on_runway ∧
      s.g.aircraft_on_runway < 2) ∧
    (∀ s t : Sys, Step .leaveCommercial s t →
      t.g.aircraft_on_runway = s.g.aircraft_on_runway - 1 ∧
      t.g.commercial_on_runway = s.g.commercial_on_runway - 1 ∧
      t.g.cargo_on_runway = s.g.cargo_on_runway ∧
      t.g.emergency_on_runway = s.g.emergency_on_runway) ∧
    (∀ s t : Sys, Step .leaveCargo s t →
      t.g.aircraft_on_runway = s.g.aircraft_on_runway - 1 ∧
      t.g.cargo_on_runway = s.g.cargo_on_runway - 1 ∧
      t.g.commercial_on_runway = s.g.commercial_on_runway ∧
      t.g.emergency_on_runway = s.g.emergency_on_runway) ∧
    (∀ s t : Sys, Step .leaveEmergency s t →
      t.g.aircraft_on_runway = s.g.aircraft_on_runway - 1 ∧
      t.g.emergency_on_runway = s.g.emergency_on_runway - 1 ∧
      t.g.commercial_on_runway = s.g.commercial_on_runway ∧
      t.g.cargo_on_runway = s.g.cargo_on_runway) := by
  refine ⟨?_, ?_, ?_, ?_, ?_, ?_, ?_⟩
  · intro s hr
    obtain i := inv_reachable hr
    have h1 := i.hcr
    have h2 := i.hgr
    have h3 := i.her
    have h4 := i.hsum
    have h5 := i.hcap
    omega
  · intro s t fe hst
    cases hst with
    | admitCommercial g rest fe h =>
        have hx := (can_enter_facts h).1
        simp only [MAX_RUNWAY_CAPACITY] at hx
        exact ⟨rfl, rfl, rfl, rfl, hx⟩
  · intro s t fe hst
    cases hst with
    | admitCargo g rest fe h =>
        have hx := (can_enter_facts h).1
        simp only [MAX_RUNWAY_CAPACITY] at hx
        exact ⟨rfl, rfl, rfl, rfl, hx⟩
  · intro s t fe hst
    cases hst with
    | admitEmergency g rest fe h =>
        have hx := (can_enter_facts h).1
        simp only [MAX_RUNWAY_CAPACITY] at hx
        exact ⟨rfl, rfl, rfl, rfl, hx⟩
  · intro s t hst
    cases hst with
    | leaveCommercial g rest => exact ⟨rfl, rfl, rfl, rfl⟩
  · intro s t hst
    cases hst with
    | leaveCargo g rest => exact ⟨rfl, rfl, rfl, rfl⟩
  · intro s t hst
    cases hst with
    | leaveEmergency g rest => exact ⟨rfl, rfl, rfl, rfl⟩

/-- A state with one commercial aircraft on the runway, reached by one
registration and one admission from the initial state; used to
instantiate release transitions concretely. -/
def gOne : GState := commercial_enter_update (commercial_register initG) false

/-- Concrete instance of claim C2: the occupancy bounds at the initial
state, and a concrete commercial release step decrementing the counters
together. -/
theorem claim2_occupancy_bounds_witness :
    (Reachable ⟨initG, 0⟩ ∧
      (0 ≤ (initG : GState).aircraft_on_runway ∧
        (initG : GState).aircraft_on_runway ≤ 2 ∧
        initG.commercial_on_runway + initG.cargo_on_runway +
          initG.emergency_on_runway = initG.aircraft_on_runway)) ∧
    (Step .leaveCommercial ⟨gOne, ⟨COMMERCIAL, .onRunway⟩ ::ₘ 0⟩
        ⟨commercial_leave_update gOne, 0⟩ ∧
      (commercial_leave_update gOne).aircraft_on_runway =
        gOne.aircraft_on_runway - 1) :=
  ⟨⟨Reachable.init, claim2_occupancy_bounds.1 ⟨initG, 0⟩ Reachable.init⟩,
    ⟨Step.leaveCommercial gOne 0,
      (claim2_occupancy_bounds.2.2.2.2.1 ⟨gOne, ⟨COMMERCIAL, .onRunway⟩ ::ₘ 0⟩
        ⟨commercial_leave_update gOne, 0⟩ (Step.leaveCommercial gOne 0)).1⟩⟩

/-- Claim C3: commercial and cargo aircraft never occupy the runway
simultaneously in any reachable state; the predicate denies a commercial
request while cargo occupies the runway and symmetrically; and the
segregation invariant is preserved by every step. -/
theorem claim3_class_segregation :
    (∀ s : Sys, Reachable s →
      ¬(s.g.commercial_on_runway > 0 ∧ s.g.cargo_on_runway > 0)) ∧
    (∀ (s : GState) (dir : Int) (fe : Bool), s.cargo_on_runway > 0 →
      can_enter_common s COMMERCIAL dir fe = false) ∧
    (∀ (s : GState) (dir : Int) (fe : Bool), s.commercial_on_runway > 0 →
      can_enter_common s CARGO dir fe = false) ∧
    (∀ (e : Event) (s t : Sys), Reachable s → Step e s t →
      ¬(t.g.commercial_on_runway > 0 ∧ t.g.cargo_on_runway > 0)) := by
  refine ⟨?_, ?_, ?_, ?_⟩
  · intro s hr
    exact (inv_reachable hr).hseg
  · intro s dir fe hc
    cases hb : can_enter_common s COMMERCIAL dir fe with
    | false => rfl
    | true => exact absurd hc ((can_enter_facts hb).2.2.1 rfl)
  · intro s dir fe hc
    cases hb : can_enter_common s CARGO dir fe with
    | false => rfl
    | true => exact absurd hc ((can_enter_facts hb).2.2.2.1 rfl)
  · intro e s t hr hst
    exact (inv_reachable (hr.step hst)).hseg

/-- A state with one cargo aircraft on the runway and nothing else. -/
def gCargoOn : GState := { initG with aircraft_on_runway := 1
                                      cargo_on_runway := 1 }

/-- Concrete instance of claim C3: with cargo on the runway, a
commercial request is denied. -/
theorem claim3_class_segregation_witness :
    gCargoOn.cargo_on_runway > 0 ∧
    can_enter_common gCargoOn COMMERCIAL NORTH false = false :=
  ⟨by decide, claim3_class_segregation.2.1 gCargoOn NORTH false (by decide)⟩

/-- Claim C4: no admission transition fires from a state whose
`aircraft_since_break` has reached the break limit 8; a step that brings
the counter from non-zero to zero can only be the controller's break
completion, which requires an empty runway; and every break completion
runs with occupancy 0 and leaves the counter at exactly 0. -/
theorem claim4_break_gate :
    (∀ (s t : Sys) (fe : Bool), Step (.admitCommercial fe) s t →
      s.g.aircraft_since_break < 8) ∧
    (∀ (s t : Sys) (fe : Bool), Step (.admitCargo fe) s t →
      s.g.aircraft_since_break < 8) ∧
    (∀ (s t : Sys) (fe : Bool), Step (.admitEmergency fe) s t →
      s.g.aircraft_since_break < 8) ∧
    (∀ (e : Event) (s t : Sys), Reachable s → Step e s t →
      t.g.aircraft_since_break = 0 → s.g.aircraft_since_break ≠ 0 →
      e = .takeBreak ∧ s.g.aircraft_on_runway = 0) ∧
    (∀ s t : Sys, Step .takeBreak s t →
      s.g.aircraft_on_runway = 0 ∧ t.g.aircraft_since_break = 0) := by
  refine ⟨?_, ?_, ?_, ?_, ?_⟩
  · intro s t fe hst
    cases hst with
    | admitCommercial g rest fe h =>
        have hx := (can_enter_facts h).2.1
        simp only [CONTROLLER_LIMIT] at hx
        exact hx
  · intro s t fe hst
    cases hst with
    | admitCargo g rest fe h =>
        have hx := (can_enter_facts h).2.1
        simp only [CONTROLLER_LIMIT] at hx
        exact hx
  · intro s t fe hst
    cases hst with
    | admitEmergency g rest fe h =>
        have hx := (can_enter_facts h).2.1
        simp only [CONTROLLER_LIMIT] at hx
        exact hx
  · intro e s t hr hst ht hs0
    have hb0 := (inv_reachable hr).hbrk0
    cases hst with
    | arriveCommercial g ts => exact absurd ht hs0
    | arriveCargo g ts => exact absurd ht hs0
    | arriveEmergency g ts => exact absurd ht hs0
    | escalate g ty rest => exact absurd ht hs0
    | admitCommercial g rest fe h =>
        simp only [commercial_enter_update] at ht
        have hb : (0 : Int) ≤ g.aircraft_since_break := hb0
        omega
    | admitCargo g rest fe h =>
        simp only [cargo_enter_update] at ht
        have hb : (0 : Int) ≤ g.aircraft_since_break := hb0
        omega
    | admitEmergency g rest fe h =>
        simp only [emergency_enter_update] at ht
        have hb : (0 : Int) ≤ g.aircraft_since_break := hb0
        omega
    | leaveCommercial g rest => exact absurd ht hs0
    | leaveCargo g rest => exact absurd ht hs0
    | leaveEmergency g rest => exact absurd ht hs0
    | takeBreak g ts hlim hempty => exact ⟨rfl, hempty⟩
    | switchDirection g ts hempty hnobreak hopp hcond => exact absurd ht hs0
  · intro s t hst
    cases hst with
    | takeBreak g ts hlim hempty => exact ⟨hempty, rfl⟩

/-- A state in which eight aircraft have been processed since the last
break and the runway is empty, so the controller can take its break. -/
def gEight : GState := { initG with aircraft_since_break := 8 }

/-- Concrete instance of claim C4: a break completion from `gEight` runs
on an empty runway and resets the counter to 0. -/
theorem claim4_break_gate_witness :
    Step .takeBreak ⟨gEight, 0⟩ ⟨take_break_update gEight, 0⟩ ∧
    (gEight.aircraft_on_runway = 0 ∧
      (take_break_update gEight).aircraft_since_break = 0) :=
  ⟨Step.takeBreak gEight 0 (by decide) rfl,
    claim4_break_gate.2.2.2.2 ⟨gEight, 0⟩ ⟨take_break_update gEight, 0⟩
      (Step.takeBreak gEight 0 (by decide) rfl)⟩

/-- Claim C6: the current direction is changed by no transition other
than the controller's direction switch; a switch requires occupancy 0
before, keeps it 0 after (the lock is held for the whole maintenance
action, which is therefore one atomic transition of the model) and
resets `consecutive_direction` to exactly 0; a break likewise runs with
occupancy 0 throughout. -/
theorem claim6_direction_switch :
    (∀ (e : Event) (s t : Sys), Step e s t → e ≠ .switchDirection →
      t.g.current_direction = s.g.current_direction) ∧
    (∀ s t : Sys, Step .switchDirection s t →
      s.g.aircraft_on_runway = 0 ∧ t.g.aircraft_on_runway = 0 ∧
      t.g.consecutive_direction = 0) ∧
    (∀ s t : Sys, Step .takeBreak s t →
      s.g.aircraft_on_runway = 0 ∧ t.g.aircraft_on_runway = 0) := by
  refine ⟨?_, ?_, ?_⟩
  · intro e s t hst hne
    cases hst <;> first | rfl | exact absurd rfl hne
  · intro s t hst
    cases hst with
    | switchDirection g ts hempty hnobreak hopp hcond =>
        exact ⟨hempty, hempty, rfl⟩
  · intro s t hst
    cases hst with
    | takeBreak g ts hlim hempty => exact ⟨hempty, hempty⟩

/-- A state with one cargo (SOUTH) waiter, an empty runway and no break
due, so the controller can switch the direction. -/
def gSwitch : GState :=
  { initG with waiting_south := 1
               waiting_cargo := 1 }

/-- Concrete instance of claim C6: a direction switch from `gSwitch`
requires and preserves an empty runway and zeroes the run counter. -/
theorem claim6_direction_switch_witness :
    Step .switchDirection ⟨gSwitch, 0⟩ ⟨switch_direction_update gSwitch, 0⟩ ∧
    (gSwitch.aircraft_on_runway = 0 ∧
      (switch_direction_update gSwitch).aircraft_on_runway = 0 ∧
      (switch_direction_update gSwitch).consecutive_direction = 0) :=
  ⟨Step.switchDirection gSwitch 0 rfl (by decide) (by decide) (by decide),
    claim6_direction_switch.2.1 ⟨gSwitch, 0⟩
      ⟨switch_direction_update gSwitch, 0⟩
      (Step.switchDirection gSwitch 0 rfl (by decide) (by decide) (by decide))⟩

/-- Claim C7: a fifth consecutive same-class standard admission cannot
fire while the other standard class has a waiter — from a reachable
state, an admission of a standard class with run length already at 4 and
that class last admitted implies the other class's waiting count is 0;
the predicate denies such a request whenever the other class has a
waiter; each standard admission updates the fairness pair exactly as the
source does; and emergency admissions leave both fairness fields
unchanged. -/
theorem claim7_standard_fairness :
    (∀ (s t : Sys) (fe : Bool), Reachable s →
      Step (.admitCommercial fe) s t → s.g.regular_type_count ≥ 4 →
      s.g.last_regular_type = COMMERCIAL → s.g.waiting_cargo = 0) ∧
    (∀ (s t : Sys) (fe : Bool), Reachable s →
      Step (.admitCargo fe) s t → s.g.regular_type_count ≥ 4 →
      s.g.last_regular_type = CARGO → s.g.waiting_commercial = 0) ∧
    (∀ (s : GState) (ty dir : Int) (fe : Bool),
      (ty = COMMERCIAL ∨ ty = CARGO) → s.regular_type_count ≥ 4 →
      s.last_regular_type = ty →
      (if ty = COMMERCIAL then s.waiting_cargo
       else s.waiting_commercial) > 0 →
      can_enter_common s ty dir fe = false) ∧
    (∀ (s t : Sys) (fe : Bool), Step (.admitCommercial fe) s t →
      t.g.last_regular_type = COMMERCIAL ∧
      t.g.regular_type_count =
        (if s.g.last_regular_type = COMMERCIAL then
          s.g.regular_type_count + 1 else 1)) ∧
    (∀ (s t : Sys) (fe : Bool), Step (.admitCargo fe) s t →
      t.g.last_regular_type = CARGO ∧
      t.g.regular_type_count =
        (if s.g.last_regular_type = CARGO then
          s.g.regular_type_count + 1 else 1)) ∧
    (∀ (s t : Sys) (fe : Bool), Step (.admitEmergency fe) s t →
      t.g.last_regular_type = s.g.last_regular_type ∧
      t.g.regular_type_count = s.g.regular_type_count) := by
  refine ⟨?_, ?_, ?_, ?_, ?_, ?_⟩
  · intro s t fe hr hst h4 hlast
    have hge : (0 : Int) ≤ s.g.waiting_cargo := by
      rw [(inv_reachable hr).hwg]
      exact Int.natCast_nonneg _
    cases hst with
    | admitCommercial g rest fe h =>
        have hfair := (can_enter_facts h).2.2.2.2.2.2 (Or.inl rfl)
        simp only [if_pos rfl, if_true] at hfair
        have hge2 : (0 : Int) ≤ g.waiting_cargo := hge
        have h4a : g.regular_type_count ≥ 4 := h4
        have hla : g.last_regular_type = COMMERCIAL := hlast
        show g.waiting_cargo = 0
        omega
  · intro s t fe hr hst h4 hlast
    have hge : (0 : Int) ≤ s.g.waiting_commercial := by
      rw [(inv_reachable hr).hwc]
      exact Int.natCast_nonneg _
    cases hst with
    | admitCargo g rest fe h =>
        have hfair := (can_enter_facts h).2.2.2.2.2.2 (Or.inr rfl)
        rw [if_neg (by decide)] at hfair
        have hge2 : (0 : Int) ≤ g.waiting_commercial := hge
        have h4a : g.regular_type_count ≥ 4 := h4
        have hla : g.last_regular_type = CARGO := hlast
        show g.waiting_commercial = 0
        simp only [CARGO] at hfair hla
        omega
  · intro s ty dir fe hstd h4 hlast hwait
    cases hb : can_enter_common s ty dir fe with
    | false => rfl
    | true =>
        exact absurd ⟨h4, hlast, hwait⟩
          ((can_enter_facts hb).2.2.2.2.2.2 hstd)
  · intro s t fe hst
    cases hst with
    | admitCommercial g rest fe h =>
        constructor
        · simp only [commercial_enter_update]
          split_ifs with hh
          · exact hh
          · rfl
        · rfl
  · intro s t fe hst
    cases hst with
    | admitCargo g rest fe h =>
        constructor
        · simp only [cargo_enter_update]
          split_ifs with hh
          · exact hh
          · rfl
        · rfl
  · intro s t fe hst
    cases hst with
    | admitEmergency g rest fe h => exact ⟨rfl, rfl⟩

/-- A state in which four consecutive commercial admissions have just
happened and one cargo aircraft is waiting. -/
def gFair : GState := { initG with regular_type_count := 4
                                   last_regular_type := COMMERCIAL
                                   waiting_cargo := 1
                                   waiting_south := 1 }

/-- Concrete instance of claim C7: a fifth consecutive commercial
request is denied while a cargo aircraft waits. -/
theorem claim7_standard_fairness_witness :
    (COMMERCIAL = COMMERCIAL ∨ COMMERCIAL = CARGO) ∧
    gFair.regular_type_count ≥ 4 ∧
    gFair.last_regular_type = COMMERCIAL ∧
    (if COMMERCIAL = COMMERCIAL then gFair.waiting_cargo
     else gFair.waiting_commercial) > 0 ∧
    can_enter_common gFair COMMERCIAL NORTH false = false :=
  ⟨Or.inl rfl, by decide, rfl, by decide,
    claim7_standard_fairness.2.2.1 gFair COMMERCIAL NORTH false
      (Or.inl rfl) (by decide) rfl (by decide)⟩

/-- Claim C9: in every reachable state `waiting_north` equals
`waiting_commercial` and `waiting_south` equals `waiting_cargo`, and
both equal the number of standard-class waiting threads of the matching
class, so emergency waiters are counted in neither direction counter;
moreover the emergency registration and admission transitions leave both
direction counters untouched. -/
theorem claim9_direction_counters :
    (∀ s : Sys, Reachable s →
      s.g.waiting_north = s.g.waiting_commercial ∧
      s.g.waiting_south = s.g.waiting_cargo ∧
      s.g.waiting_north = (waitCount COMMERCIAL s.ts : Int) ∧
      s.g.waiting_south = (waitCount CARGO s.ts : Int)) ∧
    (∀ g : GState,
      (emergency_register g).waiting_north = g.waiting_north ∧
      (emergency_register g).waiting_south = g.waiting_south) ∧
    (∀ (g : GState) (fe : Bool),
      (emergency_enter_update g fe).waiting_north = g.waiting_north ∧
      (emergency_enter_update g fe).waiting_south = g.waiting_south) := by
  refine ⟨?_, fun g => ⟨rfl, rfl⟩, fun g fe => ⟨rfl, rfl⟩⟩
  intro s hr
  obtain i := inv_reachable hr
  exact ⟨i.hnorth, i.hsouth, by rw [i.hnorth, i.hwc],
    by rw [i.hsouth, i.hwg]⟩

/-- Concrete instance of claim C9 at the initial state. -/
theorem claim9_direction_counters_witness :
    Reachable ⟨initG, 0⟩ ∧
    (initG.waiting_north = initG.waiting_commercial ∧
      initG.waiting_south = initG.waiting_cargo ∧
      initG.waiting_north = (waitCount COMMERCIAL (0 : Multiset Aircraft) : Int) ∧
      initG.waiting_south = (waitCount CARGO (0 : Multiset Aircraft) : Int)) :=
  ⟨Reachable.init, claim9_direction_counters.1 ⟨initG, 0⟩ Reachable.init⟩

/-- The shared state after a commercial arrival, an emergency arrival
and a fuel-emergency escalation of the commercial aircraft: one
escalated commercial waiter and one non-escalated emergency waiter. -/
def g10 : GState :=
  declare_fuel_emergency (emergency_register (commercial_register initG))

/-- The thread population matching `g10`. -/
def ts10 : Multiset Aircraft :=
  ⟨COMMERCIAL, .waitingFor true⟩ ::ₘ ⟨EMERGENCY, .waitingFor false⟩ ::ₘ 0

/-- Claim C10: a reachable mutual-blocking state — the runway is empty
and the structural checks pass, yet the fuel-escalated commercial waiter
is denied by the emergency-waiting check and the emergency waiter is
denied by the fuel-emergency check; once the emergency aircraft itself
escalates (an enabled transition), it is admitted. -/
theorem claim10_mutual_blocking :
    Reachable ⟨g10, ts10⟩ ∧
    g10.aircraft_on_runway = 0 ∧
    g10.aircraft_since_break < 8 ∧
    g10.current_direction = NORTH ∧
    g10.commercial_on_runway = 0 ∧
    g10.cargo_on_runway = 0 ∧
    can_enter_common g10 COMMERCIAL NORTH true = false ∧
    can_enter_common g10 EMERGENCY g10.current_direction false = false ∧
    ts10 = ⟨EMERGENCY, .waitingFor false⟩ ::ₘ ⟨COMMERCIAL, .waitingFor true⟩ ::ₘ 0 ∧
    Step .escalate
      ⟨g10, ⟨EMERGENCY, .waitingFor false⟩ ::ₘ ⟨COMMERCIAL, .waitingFor true⟩ ::ₘ 0⟩
      ⟨declare_fuel_emergency g10,
        ⟨EMERGENCY, .waitingFor true⟩ ::ₘ ⟨COMMERCIAL, .waitingFor true⟩ ::ₘ 0⟩ ∧
    can_enter_common (declare_fuel_emergency g10) EMERGENCY
      (declare_fuel_emergency g10).current_direction true = true := by
  have h0 : Reachable ⟨initG, 0⟩ := Reachable.init
  have h1 := h0.step (Step.arriveCommercial initG 0)
  have h2 := h1.step (Step.arriveEmergency (commercial_register initG)
    (⟨COMMERCIAL, .waitingFor false⟩ ::ₘ 0))
  rw [Multiset.cons_swap] at h2
  have h3 := h2.step (Step.escalate
    (emergency_register (commercial_register initG)) COMMERCIAL
    (⟨EMERGENCY, .waitingFor false⟩ ::ₘ 0))
  refine ⟨h3, by decide, by decide, rfl, by decide, by decide, by decide,
    by decide, Multiset.cons_swap _ _ _, ?_, by decide⟩
  exact Step.escalate g10 EMERGENCY (⟨COMMERCIAL, .waitingFor true⟩ ::ₘ 0)

end Runway
